import Mathlib

/-!
Verification of the signal-generation pipeline of the signalscalping
repository: pair selection by volatility ranking (utils/data.py),
indicator computation (utils/indicators.py: ATR via a rolling mean of the
true range, approximate CVD from taker-buy volumes), the rule-based
recommendation engine (utils/signals.py / signals/generator.py), and the
per-symbol last-signal tracker of the notification loop (app.py).

Numbers are modelled as exact rationals (the Python code computes with
IEEE doubles; none of the claims under scrutiny depends on rounding of
binary floating point, and the idealization makes "never NaN / never
infinity" hold by type).  Fallible fetches are modelled as `Except`
inputs, and Python's `try/except` wrapper as explicit propagation into an
error record.  Values that Python represents as `None` are `Option`s.
-/

namespace SignalScalping

/-! ### String helpers (substring / suffix tests used by the source) -/

/-- `s.endswith(suffix)` on Python strings, via the character list. -/
def strEndsWith (s sfx : String) : Bool :=
  sfx.data.isSuffixOf s.data

/-- `pat in s` on Python strings (substring containment). -/
def strContainsSub (s pat : String) : Bool :=
  s.data.tails.any (fun t => pat.data.isPrefixOf t)

/-- Python float truthiness for an optional number: `None` and `0.0` are
falsy, every other value is truthy (`if entry and tp and sl:`). -/
def truthyQ : Option ℚ → Bool
  | none => false
  | some x => decide (¬x = 0)

/-! ### Python `round(x, 2)`

Python's `round` uses banker's rounding (round half to even).  On our
rational idealization, `round(x, 2)` is round-half-even of `x * 100`,
divided by `100`. -/

/-- Round a rational to the nearest integer, halves to the even neighbour
(Python's built-in `round`). -/
def pyRoundHalfEven (q : ℚ) : ℤ :=
  let f : ℤ := ⌊q⌋
  if q - f < 1/2 then f
  else if (1:ℚ)/2 < q - f then f + 1
  else if f % 2 = 0 then f else f + 1

/-- Python `round(q, 2)`. -/
def pyRound2 (q : ℚ) : ℚ :=
  (pyRoundHalfEven (q * 100) : ℚ) / 100

/-! ### Data model -/

/-- One OHLCV candle of the feed (fields actually read by the core:
`open_time` and `open` are never consulted by the indicators or the
engine and are omitted). -/
structure Candle where
  high : ℚ
  low : ℚ
  close : ℚ
  volume : ℚ
  taker_buy_base : ℚ
deriving DecidableEq

/-! ### Indicator engine: ATR (utils/indicators.py `atr`)

The source computes, with pandas:
  `high_low   = df["high"] - df["low"]`
  `high_close = (df["high"] - df["close"].shift()).abs()`
  `low_close  = (df["low"]  - df["close"].shift()).abs()`
  `tr  = pd.concat([high_low, high_close, low_close], axis=1).max(axis=1)`
  `atr = tr.rolling(period, min_periods=1).mean()`
`shift()` makes row 0 of the two close-difference columns NaN, and the
row-wise `max` skips NaN entries, so TR at row 0 is `high - low`.  The
rolling mean with `min_periods=1` averages over the available prefix when
fewer than `period` rows exist, so no NaN appears in the output. -/

/-- `df["close"].shift()` aligned with the candle list: `none` at index 0,
`close` of the previous candle afterwards. -/
def prevCloses (cs : List Candle) : List (Option ℚ) :=
  none :: cs.map (fun c => some c.close)

/-- Row-wise pandas `max(axis=1)` with `skipna=True`: maximum of the
present entries, `none` when all entries are missing. -/
def rowMaxSkipna (l : List (Option ℚ)) : Option ℚ :=
  l.foldl
    (fun acc o =>
      match acc, o with
      | none, o => o
      | some a, none => some a
      | some a, some b => some (max a b))
    none

/-- True range of one row: skipna-max of `high - low`,
`|high - prev_close|`, `|low - prev_close|`. -/
def trRow : Candle × Option ℚ → ℚ
  | (c, pc) =>
    (rowMaxSkipna
      [some (c.high - c.low), pc.map (fun p => |c.high - p|),
        pc.map (fun p => |c.low - p|)]).getD 0

/-- The true-range series `tr` of the source. -/
def trList (cs : List Candle) : List ℚ :=
  (cs.zip (prevCloses cs)).map trRow

/-- `series.rolling(period, min_periods=1).mean()`: entry `i` is the mean
of the window of (up to) `period` values ending at `i`. -/
def rollingMean (period : ℕ) (l : List ℚ) : List ℚ :=
  (List.range l.length).map (fun i =>
    let w := (l.take (i + 1)).drop (i + 1 - period)
    w.sum / (w.length : ℚ))

/-- `atr(df, period)` of the source: the full ATR series. -/
def atr (cs : List Candle) (period : ℕ) : List ℚ :=
  rollingMean period (trList cs)

/-- `atr(kl, period=14).iloc[-1]` as used by the engine (the engine only
calls this after establishing the candle list is nonempty). -/
def atrLast (cs : List Candle) (period : ℕ) : ℚ :=
  (atr cs period).getLastD 0

/-! ### Indicator engine: approximate CVD
(utils/indicators.py `approximate_cvd_from_aggtrades`)

The source fetches 1m klines, sets
`delta = taker_buy_base - (volume - taker_buy_base)` and returns
`df["delta"].cumsum().iloc[-1]`; any exception (fetch failure, or
`iloc[-1]` on an empty frame) is caught and turned into `None`. -/

/-- Per-candle delta: aggressive buy volume minus aggressive sell volume,
with `taker_buy_base` as the buy proxy. -/
def delta (c : Candle) : ℚ :=
  c.taker_buy_base - (c.volume - c.taker_buy_base)

/-- pandas `cumsum` of a column. -/
def cumsum (l : List ℚ) : List ℚ :=
  (l.scanl (· + ·) 0).tail

/-- `approximate_cvd_from_aggtrades`, with the kline fetch as an explicit
`Except` input.  `.error` models a raised fetch exception and `.ok []`
models an empty frame; both are caught by the source's `try/except` and
yield `None`. -/
def approximate_cvd_from_aggtrades (fetch : Except String (List Candle)) : Option ℚ :=
  match fetch with
  | .error _ => none
  | .ok df =>
    match (cumsum (df.map delta)).getLast? with
    | none => none
    | some v => some v

/-! ### Recommendation engine (utils/signals.py `generate_recommendation`) -/

/-- The engine's output dict.  Missing keys / `None` values are `none`;
the error record `{symbol, error}` has every other field `none`. -/
structure Recommendation where
  symbol : String
  price : Option ℚ
  funding : Option ℚ
  oi : Option ℚ
  cvd : Option ℚ
  atrVal : Option ℚ
  atr_pct : Option ℚ
  signal : Option String
  reason : Option String
  entry : Option ℚ
  tp : Option ℚ
  sl : Option ℚ
  rr : Option ℚ
  error : Option String
deriving DecidableEq

/-- The `except Exception as e: return {"symbol": symbol, "error": str(e)}`
record. -/
def errRec (symbol msg : String) : Recommendation :=
  { symbol := symbol, price := none, funding := none, oi := none,
    cvd := none, atrVal := none, atr_pct := none, signal := none,
    reason := none, entry := none, tp := none, sl := none, rr := none,
    error := some msg }

/-- `cvd is not None and cvd < 0`. -/
def cvdNeg : Option ℚ → Bool
  | none => false
  | some c => decide (c < 0)

/-- `cvd is not None and cvd > 0`. -/
def cvdPos : Option ℚ → Bool
  | none => false
  | some c => decide (0 < c)

/-- `atr_pct = recent_atr / price if price else 0.0`. -/
def atr_pct_of (kl : List Candle) (last : Candle) : ℚ :=
  if last.close = 0 then 0 else atrLast kl 14 / last.close

/-- The tail of the engine body: the
`if entry and tp and sl:` risk-reward block followed by assembly of the
result dict.  When the block is entered with `loss == 0`, the source
evaluates `round(None, 2)`, which raises `TypeError`; the outer
`try/except` then turns the whole result into an error record. -/
def finishRec (symbol : String) (price funding oi : ℚ) (cvd : Option ℚ)
    (recent_atr atr_pct : ℚ) (signal reason : String)
    (entry tp sl : Option ℚ) : Recommendation :=
  if truthyQ entry && truthyQ tp && truthyQ sl then
    if |(sl.getD 0 - entry.getD 0) / entry.getD 0| ≠ 0 then
      { symbol := symbol, price := some price, funding := some funding,
        oi := some oi, cvd := cvd, atrVal := some recent_atr,
        atr_pct := some atr_pct, signal := some signal,
        reason := some reason, entry := entry, tp := tp, sl := sl,
        rr := some (pyRound2
          ((if strContainsSub signal "LONG" then
              (tp.getD 0 - entry.getD 0) / entry.getD 0
            else (entry.getD 0 - tp.getD 0) / entry.getD 0) /
            |(sl.getD 0 - entry.getD 0) / entry.getD 0|)), error := none }
    else
      errRec symbol "type NoneType does not define round method"
  else
    { symbol := symbol, price := some price, funding := some funding,
      oi := some oi, cvd := cvd, atrVal := some recent_atr,
      atr_pct := some atr_pct, signal := some signal,
      reason := some reason, entry := entry, tp := tp, sl := sl,
      rr := none, error := none }

/-- The decision rule and level computation, after all fetches succeeded
and the last candle was obtained (`0.0005 = 5/10000`, `0.01 = 1/100`,
`0.03 = 3/100`, `0.05 = 5/100`). -/
def recommendCore (symbol : String) (kl : List Candle) (last : Candle)
    (funding oi : ℚ) (cvd : Option ℚ) : Recommendation :=
  if funding < -(5/10000) ∧ cvdNeg cvd = true then
    finishRec symbol last.close funding oi cvd (atrLast kl 14)
      (atr_pct_of kl last) "SCALP LONG"
      "Funding negative (shorts dominate) + selling pressure -> potential short squeeze"
      (some last.close)
      (some (last.close * (1 + max (1/100) (min (5/100) (atr_pct_of kl last * 5)))))
      (some (last.close * (1 - max (1/100) (min (3/100) (atr_pct_of kl last * 3)))))
  else if 5/10000 < funding ∧ cvdPos cvd = true then
    finishRec symbol last.close funding oi cvd (atrLast kl 14)
      (atr_pct_of kl last) "SCALP SHORT"
      "Funding positive + buying pressure -> possible extension to downside reversal"
      (some last.close)
      (some (last.close * (1 - max (1/100) (min (5/100) (atr_pct_of kl last * 5)))))
      (some (last.close * (1 + max (1/100) (min (3/100) (atr_pct_of kl last * 3)))))
  else
    finishRec symbol last.close funding oi cvd (atrLast kl 14)
      (atr_pct_of kl last) "WAIT"
      (if 3/100 < atr_pct_of kl last then
        "High volatility - prefer to wait for clearer setup"
       else "No clear short-squeeze or reversal condition")
      none none none

/-- The four upstream fetches performed by `generate_recommendation`,
as explicit fallible inputs. -/
structure RecInput where
  klines : Except String (List Candle)
  funding : Except String ℚ
  oi : Except String ℚ
  cvdKlines : Except String (List Candle)

/-- `generate_recommendation(symbol, tf)`.  The body runs inside
`try/except Exception`; a failed fetch, or `kl.iloc[-1]` on an empty
frame, surfaces as the error record. -/
def generate_recommendation (symbol : String) (inp : RecInput) : Recommendation :=
  match inp.klines with
  | .error e => errRec symbol e
  | .ok kl =>
    match kl.getLast? with
    | none => errRec symbol "single positional indexer is out-of-bounds"
    | some last =>
      match inp.funding with
      | .error e => errRec symbol e
      | .ok funding =>
        match inp.oi with
        | .error e => errRec symbol e
        | .ok oi =>
          recommendCore symbol kl last funding oi
            (approximate_cvd_from_aggtrades inp.cvdKlines)

/-- An input record whose three direct fetches succeeded. -/
def okInput (kl : List Candle) (funding oi : ℚ)
    (cvdKl : Except String (List Candle)) : RecInput :=
  { klines := .ok kl, funding := .ok funding, oi := .ok oi,
    cvdKlines := cvdKl }

/-- The evaluation loop of app.py:
`for s in symbols: results.append(generate_recommendation(s, tf))`,
with the per-symbol upstream data supplied by an oracle. -/
def evaluateCycle (oracle : String → RecInput) (symbols : List String) :
    List Recommendation :=
  symbols.map (fun s => generate_recommendation s (oracle s))

/-- `clamp` as the specification writes it. -/
def clamp (x lo hi : ℚ) : ℚ := max lo (min hi x)

/-! ### Volatility ranker (utils/data.py `get_top_n_pairs_by_volatility`) -/

/-- A row of the 24h ticker snapshot. -/
structure MarketTicker where
  symbol : String
  priceChangePercent : ℚ
  volume : ℚ
deriving DecidableEq

/-- `excluded_symbols = ['COCOSUSDT', 'BEAMUSDT']`. -/
def excluded_symbols : List String := ["COCOSUSDT", "BEAMUSDT"]

/-- The filter of the list comprehension: symbol ends with "USDT", does
not contain "PERP", is not excluded, and `float(t.get("volume", 0)) > 0`. -/
def passesFilter (t : MarketTicker) : Bool :=
  strEndsWith t.symbol "USDT" && !strContainsSub t.symbol "PERP" &&
    !excluded_symbols.contains t.symbol && decide (0 < t.volume)

/-- The ordering of
`df.sort_values(["abs_change", "volume"], ascending=[False, False])`:
descending `|priceChangePercent|`, ties broken by descending volume. -/
def tickerRel (a b : MarketTicker) : Prop :=
  |b.priceChangePercent| < |a.priceChangePercent| ∨
    (|a.priceChangePercent| = |b.priceChangePercent| ∧ b.volume ≤ a.volume)

instance : DecidableRel tickerRel := fun a b => by
  unfold tickerRel; infer_instance

instance : IsTotal MarketTicker tickerRel where
  total a b := by
    unfold tickerRel
    rcases lt_trichotomy |a.priceChangePercent| |b.priceChangePercent| with h | h | h
    · exact Or.inr (Or.inl h)
    · rcases le_total b.volume a.volume with hv | hv
      · exact Or.inl (Or.inr ⟨h, hv⟩)
      · exact Or.inr (Or.inr ⟨h.symm, hv⟩)
    · exact Or.inl (Or.inl h)

instance : IsTrans MarketTicker tickerRel where
  trans a b c hab hbc := by
    unfold tickerRel at *
    rcases hab with h1 | ⟨h1, hv1⟩
    · rcases hbc with h2 | ⟨h2, _⟩
      · exact Or.inl (h2.trans h1)
      · exact Or.inl (h2 ▸ h1)
    · rcases hbc with h2 | ⟨h2, hv2⟩
      · exact Or.inl (h1 ▸ h2)
      · exact Or.inr ⟨h1.trans h2, hv2.trans hv1⟩

/-- `get_fallback_pairs(n)` of utils/data.py. -/
def get_fallback_pairs (n : ℕ) : List String :=
  ["BTCUSDT", "ETHUSDT", "BNBUSDT", "XRPUSDT", "SOLUSDT",
    "ADAUSDT", "DOGEUSDT", "AVAXUSDT", "DOTUSDT", "MATICUSDT"].take n

/-- `get_top_n_pairs_by_volatility(n)`, with the ticker snapshot as an
explicit input.  pandas' `sort_values` (an unstable sort on the pair of
keys) is modelled by a sort producing a permutation ordered by
`tickerRel`.  The source keeps `head(n * 2)` rows and then returns the
first `n` symbols of them; when the filter leaves nothing (`df.empty`)
it returns the fallback list. -/
def get_top_n_pairs_by_volatility (tickers : List MarketTicker) (n : ℕ) :
    List String :=
  if (tickers.filter passesFilter).isEmpty then get_fallback_pairs n
  else ((((List.insertionSort tickerRel
    (tickers.filter passesFilter)).take (n * 2)).map
    (fun t => t.symbol)).take n)

/-- Modelled from the claim's words for comparison with the source
embedding: the pool is exactly the tickers whose symbol ends with "USDT",
contains no perpetual marker, is not denylisted and has NONZERO reported
volume, ranked by the same key, first `n` symbols, with no fallback. -/
def rank_per_claim (tickers : List MarketTicker) (n : ℕ) : List String :=
  (((List.insertionSort tickerRel (tickers.filter (fun t =>
    strEndsWith t.symbol "USDT" && !strContainsSub t.symbol "PERP" &&
      !excluded_symbols.contains t.symbol && decide (¬t.volume = 0)))).map
    (fun t => t.symbol)).take n)

/-! ### Signal state tracker (app.py main_loop, notification block)

`last = st.session_state["last_signals"].get(s)`;
if `sig in ["SCALP LONG", "SCALP SHORT"]`: if `last != sig` store and
notify; else: if `last_signals.get(s)` is truthy and `sig == "WAIT"`,
pop the entry. -/

/-- `sig in ["SCALP LONG", "SCALP SHORT"]`. -/
def isActionable (sig : String) : Bool :=
  sig == "SCALP LONG" || sig == "SCALP SHORT"

/-- Truthiness of `dict.get(s)`: present and a nonempty string. -/
def truthyStr : Option String → Bool
  | none => false
  | some v => !(v == "")

/-- `dict.get(s)` on the last-signals map. -/
def alLookup : List (String × String) → String → Option String
  | [], _ => none
  | (k, v) :: t, s => if k = s then some v else alLookup t s

/-- `dict.pop(s, None)`. -/
def alErase (l : List (String × String)) (s : String) :
    List (String × String) :=
  l.filter (fun p => !(p.1 == s))

/-- `dict[s] = v`. -/
def alInsert (l : List (String × String)) (s v : String) :
    List (String × String) :=
  (s, v) :: alErase l s

/-- One tracker update for a symbol: new state and whether an actionable
transition was signaled (a Telegram alert sent). -/
def updateSignal (st : List (String × String)) (symbol sig : String) :
    List (String × String) × Bool :=
  if isActionable sig then
    if alLookup st symbol ≠ some sig then (alInsert st symbol sig, true)
    else (st, false)
  else
    if truthyStr (alLookup st symbol) && (sig == "WAIT") then
      (alErase st symbol, false)
    else (st, false)

/-- Run a sequence of updates, collecting the transition flags. -/
def runUpdates (st : List (String × String)) :
    List (String × String) → List Bool
  | [] => []
  | (s, g) :: rest =>
    let r := updateSignal st s g
    r.2 :: runUpdates r.1 rest


/-! ### Concrete data used by witnesses and counterexamples -/

/-- A single 15m candle: high 102, low 98, close 100 (so TR = ATR = 4 and
`atr_pct = 0.04`). -/
def wCandle : Candle := ⟨102, 98, 100, 0, 0⟩

/-- A one-candle kline frame. -/
def wKl : List Candle := [wCandle]

/-- A 1m CVD frame with net selling: volume 2, taker buy 0, delta -2. -/
def wCvdSell : Except String (List Candle) := .ok [⟨0, 0, 0, 2, 0⟩]

/-- A 1m CVD frame with net buying: volume 2, taker buy 2, delta +2. -/
def wCvdBuy : Except String (List Candle) := .ok [⟨0, 0, 0, 2, 2⟩]

/-- A kline frame whose last close is 0. -/
def zKl : List Candle := [⟨0, 0, 0, 0, 0⟩]

/-- Ticker "BUSDT": -8 percent change, volume 5. -/
def tickB : MarketTicker := ⟨"BUSDT", -8, 5⟩

/-- Ticker "CUSDT": +8 percent change, volume 9. -/
def tickC : MarketTicker := ⟨"CUSDT", 8, 9⟩

/-- A USDT ticker with negative reported volume (nonzero, yet filtered out
by the source's `volume > 0` test, leaving the frame empty). -/
def tickNegVol : MarketTicker := ⟨"XUSDT", 1, -1⟩

/-! ### Helper lemmas -/

theorem isActionable_iff (sig : String) :
    isActionable sig = true ↔ sig = "SCALP LONG" ∨ sig = "SCALP SHORT" := by
  simp [isActionable]

theorem alLookup_alInsert (st : List (String × String)) (s v : String) :
    alLookup (alInsert st s v) s = some v := by
  simp [alInsert, alLookup]

theorem alLookup_alErase (st : List (String × String)) (s : String) :
    alLookup (alErase st s) s = none := by
  induction st with
  | nil => rfl
  | cons p t ih =>
    obtain ⟨k, v⟩ := p
    unfold alErase at ih ⊢
    rw [List.filter_cons]
    by_cases h : k = s
    · simpa [h] using ih
    · simpa [h, alLookup] using ih

theorem scanl_add_getLast? (l : List ℚ) (a : ℚ) :
    (List.scanl (· + ·) a l).getLast? = some (a + l.sum) := by
  induction l generalizing a with
  | nil => simp
  | cons x xs ih =>
    rw [List.scanl_cons]
    have h := ih (a + x)
    cases hxs : List.scanl (· + ·) (a + x) xs with
    | nil =>
      exfalso
      have hlen := congrArg List.length hxs
      rw [List.length_scanl] at hlen
      simp at hlen
    | cons y ys =>
      rw [hxs] at h
      simp only [List.cons_append, List.nil_append, List.getLast?_cons_cons, h,
        List.sum_cons]
      ring_nf

theorem cumsum_getLast? (x : ℚ) (xs : List ℚ) :
    (cumsum (x :: xs)).getLast? = some ((x :: xs).sum) := by
  unfold cumsum
  rw [List.scanl_cons]
  simp only [List.cons_append, List.nil_append, List.tail_cons]
  rw [scanl_add_getLast?, List.sum_cons]
  ring_nf

theorem updateSignal_new {st : List (String × String)} {symbol sig : String}
    (ha : isActionable sig = true) (hl : alLookup st symbol ≠ some sig) :
    updateSignal st symbol sig = (alInsert st symbol sig, true) := by
  unfold updateSignal
  rw [if_pos ha, if_pos hl]

theorem updateSignal_same {st : List (String × String)} {symbol sig : String}
    (ha : isActionable sig = true) (hl : alLookup st symbol = some sig) :
    updateSignal st symbol sig = (st, false) := by
  unfold updateSignal
  rw [if_pos ha, if_neg (not_not_intro hl)]

theorem updateSignal_pop {st : List (String × String)} {symbol sig : String}
    (ha : isActionable sig = false)
    (hw : (truthyStr (alLookup st symbol) && (sig == "WAIT")) = true) :
    updateSignal st symbol sig = (alErase st symbol, false) := by
  unfold updateSignal
  rw [if_neg (by simp [ha]), if_pos hw]

theorem updateSignal_keep {st : List (String × String)} {symbol sig : String}
    (ha : isActionable sig = false)
    (hw : ¬(truthyStr (alLookup st symbol) && (sig == "WAIT")) = true) :
    updateSignal st symbol sig = (st, false) := by
  unfold updateSignal
  rw [if_neg (by simp [ha]), if_neg hw]

/-! ### Claim C2: signal state tracker -/

/-- Claim C2: `update(symbol, new_signal)` returns true exactly when
`new_signal` is SCALP LONG or SCALP SHORT and differs from the stored
value for the symbol (no stored value counts as different), and on true
it stores `new_signal`; when `new_signal` is WAIT the symbol's entry is
gone afterwards (removed if it existed) and no transition is signaled;
and the call sequence LONG, LONG, WAIT, LONG on one symbol yields
transition results [true, false, false, true].  (The WAIT clause assumes
the stored value is not the empty string, which the tracker can never
store, since `dict.get(s)` is tested for truthiness.) -/
theorem C2_signal_state_tracker :
    (∀ (st : List (String × String)) (symbol sig : String),
      ((updateSignal st symbol sig).2 = true ↔
        (sig = "SCALP LONG" ∨ sig = "SCALP SHORT") ∧
          alLookup st symbol ≠ some sig)
      ∧ ((updateSignal st symbol sig).2 = true →
          alLookup (updateSignal st symbol sig).1 symbol = some sig)
      ∧ (sig = "WAIT" → alLookup st symbol ≠ some "" →
          alLookup (updateSignal st symbol sig).1 symbol = none ∧
            (updateSignal st symbol sig).2 = false))
    ∧ runUpdates [] [("BTCUSDT", "SCALP LONG"), ("BTCUSDT", "SCALP LONG"),
        ("BTCUSDT", "WAIT"), ("BTCUSDT", "SCALP LONG")] =
        [true, false, false, true] := by
  refine ⟨fun st symbol sig => ⟨?_, ?_, ?_⟩, by decide⟩
  · by_cases ha : isActionable sig = true
    · have hact := (isActionable_iff sig).mp ha
      by_cases hl : alLookup st symbol = some sig
      · rw [updateSignal_same ha hl]
        simp [hl]
      · rw [updateSignal_new ha hl]
        simp [hact, hl]
    · have ha2 : isActionable sig = false := by simpa using ha
      have hno : ¬(sig = "SCALP LONG" ∨ sig = "SCALP SHORT") := by
        rw [← isActionable_iff]; simp [ha2]
      by_cases hw : (truthyStr (alLookup st symbol) && (sig == "WAIT")) = true
      · rw [updateSignal_pop ha2 hw]; simp [hno]
      · rw [updateSignal_keep ha2 hw]; simp [hno]
  · intro htr
    by_cases ha : isActionable sig = true
    · by_cases hl : alLookup st symbol = some sig
      · rw [updateSignal_same ha hl] at htr; exact absurd htr (by simp)
      · rw [updateSignal_new ha hl] at htr ⊢
        exact alLookup_alInsert st symbol sig
    · have ha2 : isActionable sig = false := by simpa using ha
      by_cases hw : (truthyStr (alLookup st symbol) && (sig == "WAIT")) = true
      · rw [updateSignal_pop ha2 hw] at htr; exact absurd htr (by simp)
      · rw [updateSignal_keep ha2 hw] at htr; exact absurd htr (by simp)
  · intro hwait hne
    subst hwait
    have ha : isActionable "WAIT" = false := by decide
    cases hl : alLookup st symbol with
    | none =>
      have hw : ¬(truthyStr (alLookup st symbol) && ("WAIT" == "WAIT")) = true := by
        rw [hl]; decide
      rw [updateSignal_keep ha hw]
      exact ⟨hl, rfl⟩
    | some v =>
      have hv : ¬v = "" := fun h => hne (by rw [hl, h])
      have hw : (truthyStr (alLookup st symbol) && ("WAIT" == "WAIT")) = true := by
        rw [hl]; simp [truthyStr, hv]
      rw [updateSignal_pop ha hw]
      exact ⟨alLookup_alErase st symbol, rfl⟩

/-- Witness for C2: from the empty state, a first SCALP LONG update for
"BTCUSDT" signals a transition. -/
theorem C2_signal_state_tracker_witness :
    (updateSignal [] "BTCUSDT" "SCALP LONG").2 = true :=
  (C2_signal_state_tracker.1 [] "BTCUSDT" "SCALP LONG").1.mpr
    ⟨Or.inl rfl, by decide⟩

/-! ### Claim C9: approximate CVD -/

/-- Claim C9: on a successful fetch of a nonempty 1m frame, the CVD
routine returns the cumulative sum evaluated at the last candle, i.e. the
total of `delta = taker_buy_base - (volume - taker_buy_base)`; on a
provider error or an empty frame it returns the explicit unavailable
value `none`, never a silent zero. -/
theorem C9_cvd_total :
    ∀ fetch : Except String (List Candle),
      (∀ e, fetch = .error e → approximate_cvd_from_aggtrades fetch = none)
      ∧ (fetch = .ok [] → approximate_cvd_from_aggtrades fetch = none)
      ∧ (∀ cs, cs ≠ [] → fetch = .ok cs →
          approximate_cvd_from_aggtrades fetch = some ((cs.map delta).sum)) := by
  intro fetch
  refine ⟨?_, ?_, ?_⟩
  · rintro e rfl; rfl
  · rintro rfl; rfl
  · rintro cs hne rfl
    cases cs with
    | nil => exact absurd rfl hne
    | cons c cs' =>
      show (match (cumsum ((c :: cs').map delta)).getLast? with
        | none => none
        | some v => some v) = some (((c :: cs').map delta).sum)
      rw [List.map_cons, cumsum_getLast?]

/-- Witness for C9: a failed fetch yields the unavailable value. -/
theorem C9_cvd_total_witness :
    approximate_cvd_from_aggtrades (.error "HTTP 451") = none :=
  (C9_cvd_total (.error "HTTP 451")).1 "HTTP 451" rfl

/-! ### Claim C8: per-symbol failure policy -/

/-- Claim C8: when any fetch step fails (klines, funding, open interest)
or the kline frame is empty, the result is an error record carrying the
symbol and a message with every numeric field absent; and the evaluation
loop maps each symbol independently to its own recommendation, so one
symbol's failure never affects the entries produced for the others. -/
theorem C8_failure_policy :
    (∀ (symbol : String) (inp : RecInput),
      ((∃ e, inp.klines = .error e) ∨ inp.klines = .ok ([] : List Candle) ∨
        (∃ e, inp.funding = .error e) ∨ (∃ e, inp.oi = .error e)) →
      (generate_recommendation symbol inp).symbol = symbol ∧
      (generate_recommendation symbol inp).error.isSome = true ∧
      (generate_recommendation symbol inp).price = none ∧
      (generate_recommendation symbol inp).funding = none ∧
      (generate_recommendation symbol inp).oi = none ∧
      (generate_recommendation symbol inp).cvd = none ∧
      (generate_recommendation symbol inp).atrVal = none ∧
      (generate_recommendation symbol inp).atr_pct = none ∧
      (generate_recommendation symbol inp).entry = none ∧
      (generate_recommendation symbol inp).tp = none ∧
      (generate_recommendation symbol inp).sl = none ∧
      (generate_recommendation symbol inp).rr = none)
    ∧ (∀ (oracle : String → RecInput) (symbols : List String) (i : ℕ),
        (evaluateCycle oracle symbols).length = symbols.length ∧
        (evaluateCycle oracle symbols)[i]? =
          (symbols[i]?).map (fun s => generate_recommendation s (oracle s))) := by
  constructor
  · intro symbol inp hfail
    obtain ⟨kI, fI, oI, cI⟩ := inp
    have : ∃ msg, generate_recommendation symbol ⟨kI, fI, oI, cI⟩ =
        errRec symbol msg := by
      rcases hfail with ⟨e, hk⟩ | hk | ⟨e, hf⟩ | ⟨e, ho⟩
      · simp only at hk
        subst hk
        exact ⟨e, rfl⟩
      · simp only at hk
        subst hk
        exact ⟨"single positional indexer is out-of-bounds", rfl⟩
      · simp only at hf
        subst hf
        cases kI with
        | error e2 => exact ⟨e2, rfl⟩
        | ok kl =>
          cases hl : kl.getLast? with
          | none =>
            exact ⟨"single positional indexer is out-of-bounds",
              by simp [generate_recommendation, hl]⟩
          | some last => exact ⟨e, by simp [generate_recommendation, hl]⟩
      · simp only at ho
        subst ho
        cases kI with
        | error e2 => exact ⟨e2, rfl⟩
        | ok kl =>
          cases hl : kl.getLast? with
          | none =>
            exact ⟨"single positional indexer is out-of-bounds",
              by simp [generate_recommendation, hl]⟩
          | some last =>
            cases fI with
            | error e2 => exact ⟨e2, by simp [generate_recommendation, hl]⟩
            | ok f => exact ⟨e, by simp [generate_recommendation, hl]⟩
    obtain ⟨msg, hmsg⟩ := this
    rw [hmsg]
    simp [errRec]
  · intro oracle symbols i
    constructor
    · simp [evaluateCycle]
    · simp [evaluateCycle, List.getElem?_map]

/-- Witness for C8: a symbol whose kline fetch raised gives the error
record with the symbol preserved. -/
theorem C8_failure_policy_witness :
    (generate_recommendation "BTCUSDT"
      ⟨.error "ConnectionError", .ok 0, .ok 0, .ok []⟩).symbol = "BTCUSDT" :=
  (C8_failure_policy.1 "BTCUSDT" ⟨.error "ConnectionError", .ok 0, .ok 0, .ok []⟩
    (Or.inl ⟨"ConnectionError", rfl⟩)).1

/-! ### Claim C6: volatility ranker -/

/-- Counterexample for C6 as stated: the ranker does not always return
the first `n` symbols of the sorted claim-side candidate pool.  For the
single ticker ("XUSDT", +1 percent, volume -1) the claim's pool (nonzero
volume, no fallback) yields ["XUSDT"], but the source filters on
`volume > 0`, finds the frame empty, and returns the fallback list
["BTCUSDT"]. -/
theorem C6_volatility_ranker_counterexample :
    get_top_n_pairs_by_volatility [tickNegVol] 1 = ["BTCUSDT"] ∧
    rank_per_claim [tickNegVol] 1 = ["XUSDT"] ∧
    get_top_n_pairs_by_volatility [tickNegVol] 1 ≠ rank_per_claim [tickNegVol] 1 := by
  decide

/-- Claim C6 (amended: candidates must have POSITIVE reported volume, and
when filtering leaves no candidate the source returns the fixed fallback
list truncated to `n` instead of the empty ranking): whenever the filter
(symbol ends with "USDT", no "PERP" substring, not denylisted,
volume > 0) leaves at least one ticker, the ranker returns the first `n`
symbols of a permutation of exactly the filtered tickers that is sorted
by descending |price_change_percent| with ties broken by descending
volume; and on the equal-magnitude tickers ("BUSDT",-8,vol 5),
("CUSDT",+8,vol 9) with n = 2 the result is ["CUSDT", "BUSDT"]. -/
theorem C6_volatility_ranker :
    (∀ (tickers : List MarketTicker) (n : ℕ),
      tickers.filter passesFilter ≠ [] →
      (List.insertionSort tickerRel (tickers.filter passesFilter)).Perm
          (tickers.filter passesFilter)
      ∧ List.Sorted tickerRel
          (List.insertionSort tickerRel (tickers.filter passesFilter))
      ∧ get_top_n_pairs_by_volatility tickers n =
          ((List.insertionSort tickerRel (tickers.filter passesFilter)).map
            (fun t => t.symbol)).take n)
    ∧ get_top_n_pairs_by_volatility [tickB, tickC] 2 = ["CUSDT", "BUSDT"] := by
  constructor
  · intro tickers n hne
    refine ⟨List.perm_insertionSort tickerRel _,
      List.sorted_insertionSort tickerRel _, ?_⟩
    unfold get_top_n_pairs_by_volatility
    have hemp : (tickers.filter passesFilter).isEmpty = false := by
      cases h : tickers.filter passesFilter with
      | nil => exact absurd h hne
      | cons a l => rfl
    rw [hemp]
    simp only [Bool.false_eq_true, if_false, List.map_take, List.take_take]
    rw [Nat.min_eq_left (by omega)]
  · decide

/-- Witness for the amended C6, at the claim's own equal-magnitude
example: the filter keeps both tickers and the ranked output equals the
first two symbols of the sorted pool. -/
theorem C6_volatility_ranker_witness :
    get_top_n_pairs_by_volatility [tickB, tickC] 2 =
      ((List.insertionSort tickerRel ([tickB, tickC].filter passesFilter)).map
        (fun t => t.symbol)).take 2 :=
  (C6_volatility_ranker.1 [tickB, tickC] 2 (by decide)).2.2

/-! ### Helper lemmas for the recommendation engine -/

theorem gen_ok (symbol : String) (kl : List Candle) (last : Candle)
    (funding oi : ℚ) (cvdKl : Except String (List Candle))
    (h : kl.getLast? = some last) :
    generate_recommendation symbol (okInput kl funding oi cvdKl) =
      recommendCore symbol kl last funding oi
        (approximate_cvd_from_aggtrades cvdKl) := by
  simp [generate_recommendation, okInput, h]

theorem core_long {funding : ℚ} {cvd : Option ℚ}
    (hf : funding < -(5/10000)) (hc : cvdNeg cvd = true)
    (symbol : String) (kl : List Candle) (last : Candle) (oi : ℚ) :
    recommendCore symbol kl last funding oi cvd =
      finishRec symbol last.close funding oi cvd (atrLast kl 14)
        (atr_pct_of kl last) "SCALP LONG"
        "Funding negative (shorts dominate) + selling pressure -> potential short squeeze"
        (some last.close)
        (some (last.close * (1 + max (1/100) (min (5/100) (atr_pct_of kl last * 5)))))
        (some (last.close * (1 - max (1/100) (min (3/100) (atr_pct_of kl last * 3))))) := by
  unfold recommendCore
  rw [if_pos ⟨hf, hc⟩]

theorem core_short {funding : ℚ} {cvd : Option ℚ}
    (hf : 5/10000 < funding) (hc : cvdPos cvd = true)
    (symbol : String) (kl : List Candle) (last : Candle) (oi : ℚ) :
    recommendCore symbol kl last funding oi cvd =
      finishRec symbol last.close funding oi cvd (atrLast kl 14)
        (atr_pct_of kl last) "SCALP SHORT"
        "Funding positive + buying pressure -> possible extension to downside reversal"
        (some last.close)
        (some (last.close * (1 - max (1/100) (min (5/100) (atr_pct_of kl last * 5)))))
        (some (last.close * (1 + max (1/100) (min (3/100) (atr_pct_of kl last * 3))))) := by
  unfold recommendCore
  rw [if_neg (fun h => absurd hf (by linarith [h.1])), if_pos ⟨hf, hc⟩]

theorem core_wait {funding : ℚ} {cvd : Option ℚ}
    (h1 : ¬(funding < -(5/10000) ∧ cvdNeg cvd = true))
    (h2 : ¬(5/10000 < funding ∧ cvdPos cvd = true))
    (symbol : String) (kl : List Candle) (last : Candle) (oi : ℚ) :
    recommendCore symbol kl last funding oi cvd =
      finishRec symbol last.close funding oi cvd (atrLast kl 14)
        (atr_pct_of kl last) "WAIT"
        (if 3/100 < atr_pct_of kl last then
          "High volatility - prefer to wait for clearer setup"
         else "No clear short-squeeze or reversal condition")
        none none none := by
  unfold recommendCore
  rw [if_neg h1, if_neg h2]

theorem finishRec_skip (symbol : String) (p f o : ℚ) (c : Option ℚ)
    (a ap : ℚ) (sig rs : String) (entry tp sl : Option ℚ)
    (h : (truthyQ entry && truthyQ tp && truthyQ sl) = false) :
    finishRec symbol p f o c a ap sig rs entry tp sl =
      { symbol := symbol, price := some p, funding := some f, oi := some o,
        cvd := c, atrVal := some a, atr_pct := some ap, signal := some sig,
        reason := some rs, entry := entry, tp := tp, sl := sl,
        rr := none, error := none } := by
  unfold finishRec
  rw [if_neg (by simp [h])]

theorem finishRec_go (symbol : String) (p f o : ℚ) (c : Option ℚ)
    (a ap : ℚ) (sig rs : String) (entry tp sl : Option ℚ)
    (hE : truthyQ entry = true) (hT : truthyQ tp = true)
    (hS : truthyQ sl = true)
    (hL : |(sl.getD 0 - entry.getD 0) / entry.getD 0| ≠ 0) :
    finishRec symbol p f o c a ap sig rs entry tp sl =
      { symbol := symbol, price := some p, funding := some f, oi := some o,
        cvd := c, atrVal := some a, atr_pct := some ap, signal := some sig,
        reason := some rs, entry := entry, tp := tp, sl := sl,
        rr := some (pyRound2
          ((if strContainsSub sig "LONG" then
              (tp.getD 0 - entry.getD 0) / entry.getD 0
            else (entry.getD 0 - tp.getD 0) / entry.getD 0) /
            |(sl.getD 0 - entry.getD 0) / entry.getD 0|)),
        error := none } := by
  unfold finishRec
  rw [if_pos (by simp [hE, hT, hS]), if_pos hL]

theorem diff_div_up (p m : ℚ) (hp : p ≠ 0) : (p * (1 + m) - p) / p = m := by
  field_simp
  ring

theorem diff_div_down (p m : ℚ) (hp : p ≠ 0) : (p * (1 - m) - p) / p = -m := by
  field_simp
  ring

theorem truthyQ_some_iff (x : ℚ) : truthyQ (some x) = true ↔ x ≠ 0 := by
  simp [truthyQ]

theorem finishRec_wait_props (symbol : String) (p f o : ℚ) (c : Option ℚ)
    (a ap : ℚ) (rs : String) :
    (finishRec symbol p f o c a ap "WAIT" rs none none none).signal = some "WAIT"
    ∧ (finishRec symbol p f o c a ap "WAIT" rs none none none).entry = none
    ∧ (finishRec symbol p f o c a ap "WAIT" rs none none none).tp = none
    ∧ (finishRec symbol p f o c a ap "WAIT" rs none none none).sl = none
    ∧ (finishRec symbol p f o c a ap "WAIT" rs none none none).rr = none
    ∧ (finishRec symbol p f o c a ap "WAIT" rs none none none).error = none := by
  rw [finishRec_skip symbol p f o c a ap "WAIT" rs none none none rfl]
  exact ⟨rfl, rfl, rfl, rfl, rfl, rfl⟩

theorem finishRec_long_props (symbol : String) (p f o : ℚ) (c : Option ℚ)
    (a ap : ℚ) (rs : String) (m5 m3 : ℚ)
    (h5 : 1/100 ≤ m5) (h3 : 1/100 ≤ m3) (h3h : m3 ≤ 3/100) :
    (finishRec symbol p f o c a ap "SCALP LONG" rs (some p)
        (some (p * (1 + m5))) (some (p * (1 - m3)))).signal = some "SCALP LONG"
    ∧ (finishRec symbol p f o c a ap "SCALP LONG" rs (some p)
        (some (p * (1 + m5))) (some (p * (1 - m3)))).entry = some p
    ∧ (finishRec symbol p f o c a ap "SCALP LONG" rs (some p)
        (some (p * (1 + m5))) (some (p * (1 - m3)))).tp = some (p * (1 + m5))
    ∧ (finishRec symbol p f o c a ap "SCALP LONG" rs (some p)
        (some (p * (1 + m5))) (some (p * (1 - m3)))).sl = some (p * (1 - m3))
    ∧ (finishRec symbol p f o c a ap "SCALP LONG" rs (some p)
        (some (p * (1 + m5))) (some (p * (1 - m3)))).error = none
    ∧ (p = 0 → (finishRec symbol p f o c a ap "SCALP LONG" rs (some p)
        (some (p * (1 + m5))) (some (p * (1 - m3)))).rr = none)
    ∧ (p ≠ 0 → |(p * (1 - m3) - p) / p| ≠ 0 ∧
        (finishRec symbol p f o c a ap "SCALP LONG" rs (some p)
          (some (p * (1 + m5))) (some (p * (1 - m3)))).rr =
          some (pyRound2 (((p * (1 + m5) - p) / p) / |(p * (1 - m3) - p) / p|))) := by
  by_cases hp : p = 0
  · subst hp
    rw [finishRec_skip _ _ _ _ _ _ _ _ _ _ _ _ (by simp [truthyQ])]
    exact ⟨rfl, rfl, rfl, rfl, rfl, fun _ => rfl, fun h => absurd rfl h⟩
  · have hm5 : (0:ℚ) < 1 + m5 := by linarith
    have hm3 : (0:ℚ) < 1 - m3 := by linarith
    have hT : p * (1 + m5) ≠ 0 := mul_ne_zero hp (ne_of_gt hm5)
    have hS : p * (1 - m3) ≠ 0 := mul_ne_zero hp (ne_of_gt hm3)
    have habs : |(p * (1 - m3) - p) / p| = m3 := by
      rw [diff_div_down p m3 hp, abs_neg, abs_of_pos (by linarith)]
    have hLne : |(p * (1 - m3) - p) / p| ≠ 0 := by
      rw [habs]; exact ne_of_gt (by linarith)
    rw [finishRec_go _ _ _ _ _ _ _ _ _ _ _ _ (by simp [truthyQ, hp])
      (by simp [truthyQ, hT]) (by simp [truthyQ, hS]) (by simpa using hLne)]
    refine ⟨rfl, rfl, rfl, rfl, rfl, fun h => absurd h hp, fun _ => ⟨hLne, ?_⟩⟩
    simp only [Option.getD_some]
    rw [if_pos (show strContainsSub "SCALP LONG" "LONG" = true by decide)]

theorem finishRec_short_props (symbol : String) (p f o : ℚ) (c : Option ℚ)
    (a ap : ℚ) (rs : String) (m5 m3 : ℚ)
    (h5 : 1/100 ≤ m5) (h5h : m5 ≤ 5/100) (h3 : 1/100 ≤ m3) :
    (finishRec symbol p f o c a ap "SCALP SHORT" rs (some p)
        (some (p * (1 - m5))) (some (p * (1 + m3)))).signal = some "SCALP SHORT"
    ∧ (finishRec symbol p f o c a ap "SCALP SHORT" rs (some p)
        (some (p * (1 - m5))) (some (p * (1 + m3)))).entry = some p
    ∧ (finishRec symbol p f o c a ap "SCALP SHORT" rs (some p)
        (some (p * (1 - m5))) (some (p * (1 + m3)))).tp = some (p * (1 - m5))
    ∧ (finishRec symbol p f o c a ap "SCALP SHORT" rs (some p)
        (some (p * (1 - m5))) (some (p * (1 + m3)))).sl = some (p * (1 + m3))
    ∧ (finishRec symbol p f o c a ap "SCALP SHORT" rs (some p)
        (some (p * (1 - m5))) (some (p * (1 + m3)))).error = none
    ∧ (p = 0 → (finishRec symbol p f o c a ap "SCALP SHORT" rs (some p)
        (some (p * (1 - m5))) (some (p * (1 + m3)))).rr = none)
    ∧ (p ≠ 0 → |(p * (1 + m3) - p) / p| ≠ 0 ∧
        (finishRec symbol p f o c a ap "SCALP SHORT" rs (some p)
          (some (p * (1 - m5))) (some (p * (1 + m3)))).rr =
          some (pyRound2 (((p - p * (1 - m5)) / p) / |(p * (1 + m3) - p) / p|))) := by
  by_cases hp : p = 0
  · subst hp
    rw [finishRec_skip _ _ _ _ _ _ _ _ _ _ _ _ (by simp [truthyQ])]
    exact ⟨rfl, rfl, rfl, rfl, rfl, fun _ => rfl, fun h => absurd rfl h⟩
  · have hm5 : (0:ℚ) < 1 - m5 := by linarith
    have hm3 : (0:ℚ) < 1 + m3 := by linarith
    have hT : p * (1 - m5) ≠ 0 := mul_ne_zero hp (ne_of_gt hm5)
    have hS : p * (1 + m3) ≠ 0 := mul_ne_zero hp (ne_of_gt hm3)
    have habs : |(p * (1 + m3) - p) / p| = m3 := by
      rw [diff_div_up p m3 hp, abs_of_pos (by linarith)]
    have hLne : |(p * (1 + m3) - p) / p| ≠ 0 := by
      rw [habs]; exact ne_of_gt (by linarith)
    rw [finishRec_go _ _ _ _ _ _ _ _ _ _ _ _ (by simp [truthyQ, hp])
      (by simp [truthyQ, hT]) (by simp [truthyQ, hS]) (by simpa using hLne)]
    refine ⟨rfl, rfl, rfl, rfl, rfl, fun h => absurd h hp, fun _ => ⟨hLne, ?_⟩⟩
    simp only [Option.getD_some]
    rw [if_neg (show ¬strContainsSub "SCALP SHORT" "LONG" = true by decide)]

/-! ### Claim C1: the decision rule -/

/-- Claim C1: when all inputs are fetched successfully, the decision is
the fixed-order first-match rule: funding < -0.0005 with available
negative CVD gives SCALP LONG with entry = price,
tp = price * (1 + clamp(atr_pct*5, 0.01, 0.05)),
sl = price * (1 - clamp(atr_pct*3, 0.01, 0.03)); funding > 0.0005 with
available positive CVD gives the SCALP SHORT mirror image; anything else
gives WAIT with entry, tp, sl and rr absent. -/
theorem C1_decision_rule :
    ∀ (symbol : String) (kl : List Candle) (last : Candle) (funding oi : ℚ)
      (cvdKl : Except String (List Candle)) (r : Recommendation),
      kl.getLast? = some last →
      r = generate_recommendation symbol (okInput kl funding oi cvdKl) →
      ((∀ c, approximate_cvd_from_aggtrades cvdKl = some c →
          funding < -(5/10000) → c < 0 →
          r.signal = some "SCALP LONG" ∧ r.entry = some last.close ∧
          r.tp = some (last.close *
            (1 + clamp (atr_pct_of kl last * 5) (1/100) (5/100))) ∧
          r.sl = some (last.close *
            (1 - clamp (atr_pct_of kl last * 3) (1/100) (3/100))))
      ∧ (∀ c, approximate_cvd_from_aggtrades cvdKl = some c →
          5/10000 < funding → 0 < c →
          r.signal = some "SCALP SHORT" ∧ r.entry = some last.close ∧
          r.tp = some (last.close *
            (1 - clamp (atr_pct_of kl last * 5) (1/100) (5/100))) ∧
          r.sl = some (last.close *
            (1 + clamp (atr_pct_of kl last * 3) (1/100) (3/100))))
      ∧ (¬(funding < -(5/10000) ∧
            cvdNeg (approximate_cvd_from_aggtrades cvdKl) = true) →
         ¬(5/10000 < funding ∧
            cvdPos (approximate_cvd_from_aggtrades cvdKl) = true) →
          r.signal = some "WAIT" ∧ r.entry = none ∧ r.tp = none ∧
          r.sl = none ∧ r.rr = none)) := by
  intro symbol kl last funding oi cvdKl r hlast hr
  subst hr
  rw [gen_ok symbol kl last funding oi cvdKl hlast]
  refine ⟨?_, ?_, ?_⟩
  · intro c hc hf hneg
    have hcb : cvdNeg (approximate_cvd_from_aggtrades cvdKl) = true := by
      rw [hc]; simpa [cvdNeg] using hneg
    rw [core_long hf hcb symbol kl last oi]
    have props := finishRec_long_props symbol last.close funding oi
      (approximate_cvd_from_aggtrades cvdKl) (atrLast kl 14)
      (atr_pct_of kl last)
      "Funding negative (shorts dominate) + selling pressure -> potential short squeeze"
      (max (1/100) (min (5/100) (atr_pct_of kl last * 5)))
      (max (1/100) (min (3/100) (atr_pct_of kl last * 3)))
      (le_max_left _ _) (le_max_left _ _)
      (max_le (by norm_num) (min_le_left _ _))
    exact ⟨props.1, props.2.1, props.2.2.1, props.2.2.2.1⟩
  · intro c hc hf hpos
    have hcb : cvdPos (approximate_cvd_from_aggtrades cvdKl) = true := by
      rw [hc]; simpa [cvdPos] using hpos
    rw [core_short hf hcb symbol kl last oi]
    have props := finishRec_short_props symbol last.close funding oi
      (approximate_cvd_from_aggtrades cvdKl) (atrLast kl 14)
      (atr_pct_of kl last)
      "Funding positive + buying pressure -> possible extension to downside reversal"
      (max (1/100) (min (5/100) (atr_pct_of kl last * 5)))
      (max (1/100) (min (3/100) (atr_pct_of kl last * 3)))
      (le_max_left _ _) (max_le (by norm_num) (min_le_left _ _))
      (le_max_left _ _)
    exact ⟨props.1, props.2.1, props.2.2.1, props.2.2.2.1⟩
  · intro h1 h2
    rw [core_wait h1 h2 symbol kl last oi]
    have props := finishRec_wait_props symbol last.close funding oi
      (approximate_cvd_from_aggtrades cvdKl) (atrLast kl 14)
      (atr_pct_of kl last)
      (if 3/100 < atr_pct_of kl last then
        "High volatility - prefer to wait for clearer setup"
       else "No clear short-squeeze or reversal condition")
    exact ⟨props.1, props.2.1, props.2.2.1, props.2.2.2.1, props.2.2.2.2.1⟩

theorem cvd_wCvdSell : approximate_cvd_from_aggtrades wCvdSell = some (-2) := by
  norm_num [approximate_cvd_from_aggtrades, wCvdSell, cumsum, delta, List.scanl]

/-- Witness for C1: candles with last close 100, funding -0.001 and
CVD -2 produce a SCALP LONG signal. -/
theorem C1_decision_rule_witness :
    (generate_recommendation "BTCUSDT"
      (okInput wKl (-(1/1000)) 0 wCvdSell)).signal = some "SCALP LONG" :=
  ((C1_decision_rule "BTCUSDT" wKl wCandle (-(1/1000)) 0 wCvdSell _ rfl rfl).1
    (-2) cvd_wCvdSell (by norm_num) (by norm_num)).1

/-! ### Claim C3: branch exclusivity and boundary behavior -/

/-- Claim C3: the SCALP LONG and SCALP SHORT firing conditions can never
hold simultaneously (so with the if/elif/else chain at most one of the
three branches fires), and each boundary value — funding exactly
±0.0005, CVD exactly 0, or CVD unavailable — falls through to WAIT,
because every threshold comparison is strict. -/
theorem C3_boundary_wait :
    ∀ (symbol : String) (kl : List Candle) (last : Candle) (funding oi : ℚ)
      (cvdKl : Except String (List Candle)) (r : Recommendation),
      kl.getLast? = some last →
      r = generate_recommendation symbol (okInput kl funding oi cvdKl) →
      (¬((funding < -(5/10000) ∧
            cvdNeg (approximate_cvd_from_aggtrades cvdKl) = true) ∧
         (5/10000 < funding ∧
            cvdPos (approximate_cvd_from_aggtrades cvdKl) = true)))
      ∧ (funding = -(5/10000) ∨ funding = 5/10000 ∨
          approximate_cvd_from_aggtrades cvdKl = some 0 ∨
          approximate_cvd_from_aggtrades cvdKl = none →
          r.signal = some "WAIT") := by
  intro symbol kl last funding oi cvdKl r hlast hr
  subst hr
  constructor
  · rintro ⟨⟨hf1, -⟩, ⟨hf2, -⟩⟩
    linarith
  · intro hb
    rw [gen_ok symbol kl last funding oi cvdKl hlast]
    have hwait :
        ¬(funding < -(5/10000) ∧
            cvdNeg (approximate_cvd_from_aggtrades cvdKl) = true) →
        ¬(5/10000 < funding ∧
            cvdPos (approximate_cvd_from_aggtrades cvdKl) = true) →
        (recommendCore symbol kl last funding oi
          (approximate_cvd_from_aggtrades cvdKl)).signal = some "WAIT" := by
      intro h1 h2
      rw [core_wait h1 h2 symbol kl last oi]
      exact (finishRec_wait_props symbol last.close funding oi _ _ _ _).1
    rcases hb with hf | hf | hc | hc
    · subst hf
      exact hwait (fun h => lt_irrefl _ h.1) (fun h => by linarith [h.1])
    · subst hf
      exact hwait (fun h => by linarith [h.1]) (fun h => lt_irrefl _ h.1)
    · refine hwait (fun h => ?_) (fun h => ?_)
      · have := h.2
        rw [hc] at this
        simp [cvdNeg] at this
      · have := h.2
        rw [hc] at this
        simp [cvdPos] at this
    · refine hwait (fun h => ?_) (fun h => ?_)
      · have := h.2
        rw [hc] at this
        simp [cvdNeg] at this
      · have := h.2
        rw [hc] at this
        simp [cvdPos] at this

/-- Witness for C3: with funding exactly -0.0005 and strictly negative
CVD, the result is WAIT. -/
theorem C3_boundary_wait_witness :
    (generate_recommendation "BTCUSDT"
      (okInput wKl (-(5/10000)) 0 wCvdSell)).signal = some "WAIT" :=
  (C3_boundary_wait "BTCUSDT" wKl wCandle (-(5/10000)) 0 wCvdSell _ rfl rfl).2
    (Or.inl rfl)

/-! ### Claim C5: presence invariant for entry/tp/sl/rr -/

/-- Counterexample for C5 as stated (which includes `price == 0`): with a
last close of 0, funding -0.001 and CVD -2 the SCALP LONG branch fires
and sets entry = tp = sl = 0.0 — present values — while the
`if entry and tp and sl:` truthiness test skips the risk-reward block, so
rr stays absent: the four fields are neither all present nor all absent,
and rr is absent despite an actionable signal. -/
theorem C5_presence_counterexample :
    (generate_recommendation "BTCUSDT"
      (okInput zKl (-(1/1000)) 0 wCvdSell)).signal = some "SCALP LONG"
    ∧ (generate_recommendation "BTCUSDT"
      (okInput zKl (-(1/1000)) 0 wCvdSell)).entry = some 0
    ∧ (generate_recommendation "BTCUSDT"
      (okInput zKl (-(1/1000)) 0 wCvdSell)).tp = some 0
    ∧ (generate_recommendation "BTCUSDT"
      (okInput zKl (-(1/1000)) 0 wCvdSell)).sl = some 0
    ∧ (generate_recommendation "BTCUSDT"
      (okInput zKl (-(1/1000)) 0 wCvdSell)).rr = none := by
  rw [gen_ok "BTCUSDT" zKl ⟨0, 0, 0, 0, 0⟩ (-(1/1000)) 0 wCvdSell rfl,
    cvd_wCvdSell, core_long (by norm_num) (by decide) "BTCUSDT" zKl
      ⟨0, 0, 0, 0, 0⟩ 0]
  have props := finishRec_long_props "BTCUSDT" (Candle.close ⟨0, 0, 0, 0, 0⟩)
    (-(1/1000)) 0 (some (-2)) (atrLast zKl 14)
    (atr_pct_of zKl ⟨0, 0, 0, 0, 0⟩)
    "Funding negative (shorts dominate) + selling pressure -> potential short squeeze"
    (max (1/100) (min (5/100) (atr_pct_of zKl ⟨0, 0, 0, 0, 0⟩ * 5)))
    (max (1/100) (min (3/100) (atr_pct_of zKl ⟨0, 0, 0, 0, 0⟩ * 3)))
    (le_max_left _ _) (le_max_left _ _)
    (max_le (by norm_num) (min_le_left _ _))
  refine ⟨props.1, ?_, ?_, ?_, props.2.2.2.2.2.1 rfl⟩
  · rw [props.2.1]
  · rw [props.2.2.1]
    norm_num
  · rw [props.2.2.2.1]
    norm_num

/-- Claim C5 (amended: the all-or-nothing presence of entry/tp/sl/rr and
their equivalence with an actionable signal hold whenever the last close
— the price — is nonzero; at price exactly 0 an actionable evaluation
emits entry/tp/sl as present zeros with rr absent, per the
counterexample). -/
theorem C5_presence_invariant :
    ∀ (symbol : String) (kl : List Candle) (last : Candle) (funding oi : ℚ)
      (cvdKl : Except String (List Candle)) (r : Recommendation),
      kl.getLast? = some last → last.close ≠ 0 →
      r = generate_recommendation symbol (okInput kl funding oi cvdKl) →
      ((r.entry.isSome ∧ r.tp.isSome ∧ r.sl.isSome ∧ r.rr.isSome) ∨
        (r.entry = none ∧ r.tp = none ∧ r.sl = none ∧ r.rr = none))
      ∧ (r.entry.isSome ↔
          (r.signal = some "SCALP LONG" ∨ r.signal = some "SCALP SHORT"))
      ∧ (r.rr.isSome ↔
          (r.signal = some "SCALP LONG" ∨ r.signal = some "SCALP SHORT")) := by
  intro symbol kl last funding oi cvdKl r hlast hp hr
  subst hr
  rw [gen_ok symbol kl last funding oi cvdKl hlast]
  by_cases hL : funding < -(5/10000) ∧
      cvdNeg (approximate_cvd_from_aggtrades cvdKl) = true
  · rw [core_long hL.1 hL.2 symbol kl last oi]
    have props := finishRec_long_props symbol last.close funding oi
      (approximate_cvd_from_aggtrades cvdKl) (atrLast kl 14)
      (atr_pct_of kl last)
      "Funding negative (shorts dominate) + selling pressure -> potential short squeeze"
      (max (1/100) (min (5/100) (atr_pct_of kl last * 5)))
      (max (1/100) (min (3/100) (atr_pct_of kl last * 3)))
      (le_max_left _ _) (le_max_left _ _)
      (max_le (by norm_num) (min_le_left _ _))
    rw [props.1, props.2.1, props.2.2.1, props.2.2.2.1,
      (props.2.2.2.2.2.2 hp).2]
    simp
  · by_cases hS : 5/10000 < funding ∧
        cvdPos (approximate_cvd_from_aggtrades cvdKl) = true
    · rw [core_short hS.1 hS.2 symbol kl last oi]
      have props := finishRec_short_props symbol last.close funding oi
        (approximate_cvd_from_aggtrades cvdKl) (atrLast kl 14)
        (atr_pct_of kl last)
        "Funding positive + buying pressure -> possible extension to downside reversal"
        (max (1/100) (min (5/100) (atr_pct_of kl last * 5)))
        (max (1/100) (min (3/100) (atr_pct_of kl last * 3)))
        (le_max_left _ _) (max_le (by norm_num) (min_le_left _ _))
        (le_max_left _ _)
      rw [props.1, props.2.1, props.2.2.1, props.2.2.2.1,
        (props.2.2.2.2.2.2 hp).2]
      simp
    · rw [core_wait hL hS symbol kl last oi]
      have props := finishRec_wait_props symbol last.close funding oi
        (approximate_cvd_from_aggtrades cvdKl) (atrLast kl 14)
        (atr_pct_of kl last)
        (if 3/100 < atr_pct_of kl last then
          "High volatility - prefer to wait for clearer setup"
         else "No clear short-squeeze or reversal condition")
      rw [props.1, props.2.1, props.2.2.1, props.2.2.2.1, props.2.2.2.2.1]
      simp

/-- Witness for the amended C5 at a nonzero price: on the SCALP LONG
input with last close 100, the four fields are all present or all
absent. -/
theorem C5_presence_invariant_witness :
    ((generate_recommendation "BTCUSDT"
        (okInput wKl (-(1/1000)) 0 wCvdSell)).entry.isSome
      ∧ (generate_recommendation "BTCUSDT"
        (okInput wKl (-(1/1000)) 0 wCvdSell)).tp.isSome
      ∧ (generate_recommendation "BTCUSDT"
        (okInput wKl (-(1/1000)) 0 wCvdSell)).sl.isSome
      ∧ (generate_recommendation "BTCUSDT"
        (okInput wKl (-(1/1000)) 0 wCvdSell)).rr.isSome)
    ∨ ((generate_recommendation "BTCUSDT"
        (okInput wKl (-(1/1000)) 0 wCvdSell)).entry = none
      ∧ (generate_recommendation "BTCUSDT"
        (okInput wKl (-(1/1000)) 0 wCvdSell)).tp = none
      ∧ (generate_recommendation "BTCUSDT"
        (okInput wKl (-(1/1000)) 0 wCvdSell)).sl = none
      ∧ (generate_recommendation "BTCUSDT"
        (okInput wKl (-(1/1000)) 0 wCvdSell)).rr = none) :=
  (C5_presence_invariant "BTCUSDT" wKl wCandle (-(1/1000)) 0 wCvdSell _
    rfl (by decide) rfl).1


/-! ### Claim C4: risk-reward computation -/

/-- Claim C4: on successfully fetched inputs the evaluation never raises
(the result is never an error record, so the guarded `round(None, 2)`
branch is dead), and whenever entry, tp, sl are all present:
if `loss = |(sl-entry)/entry|` is nonzero then
`rr = round(potential/loss, 2)` with `potential = (tp-entry)/entry` for a
LONG signal and `(entry-tp)/entry` for a SHORT signal, and if `loss` is
zero then rr is absent.  (On the rational model there is no infinity for
`rr` to be.) -/
theorem C4_risk_reward :
    ∀ (symbol : String) (kl : List Candle) (last : Candle) (funding oi : ℚ)
      (cvdKl : Except String (List Candle)) (r : Recommendation),
      kl.getLast? = some last →
      r = generate_recommendation symbol (okInput kl funding oi cvdKl) →
      r.error = none
      ∧ (∀ e t s, r.entry = some e → r.tp = some t → r.sl = some s →
          ((|(s - e) / e| = 0 → r.rr = none)
          ∧ (|(s - e) / e| ≠ 0 → r.rr = some (pyRound2
              ((if r.signal = some "SCALP LONG" then (t - e) / e
                else (e - t) / e) / |(s - e) / e|))))) := by
  intro symbol kl last funding oi cvdKl r hlast hr
  subst hr
  rw [gen_ok symbol kl last funding oi cvdKl hlast]
  by_cases hL : funding < -(5/10000) ∧
      cvdNeg (approximate_cvd_from_aggtrades cvdKl) = true
  · rw [core_long hL.1 hL.2 symbol kl last oi]
    have props := finishRec_long_props symbol last.close funding oi
      (approximate_cvd_from_aggtrades cvdKl) (atrLast kl 14)
      (atr_pct_of kl last)
      "Funding negative (shorts dominate) + selling pressure -> potential short squeeze"
      (max (1/100) (min (5/100) (atr_pct_of kl last * 5)))
      (max (1/100) (min (3/100) (atr_pct_of kl last * 3)))
      (le_max_left _ _) (le_max_left _ _)
      (max_le (by norm_num) (min_le_left _ _))
    refine ⟨props.2.2.2.2.1, ?_⟩
    intro e t s he ht hs
    rw [props.2.1] at he
    rw [props.2.2.1] at ht
    rw [props.2.2.2.1] at hs
    obtain rfl := (Option.some.inj he).symm
    obtain rfl := (Option.some.inj ht).symm
    obtain rfl := (Option.some.inj hs).symm
    by_cases hp : last.close = 0
    · constructor
      · intro _
        exact props.2.2.2.2.2.1 hp
      · intro hne
        exfalso
        apply hne
        rw [hp]
        norm_num
    · have hprops := props.2.2.2.2.2.2 hp
      constructor
      · intro hzero
        exact absurd hzero hprops.1
      · intro _
        rw [props.1, if_pos rfl]
        exact hprops.2
  · by_cases hS : 5/10000 < funding ∧
        cvdPos (approximate_cvd_from_aggtrades cvdKl) = true
    · rw [core_short hS.1 hS.2 symbol kl last oi]
      have props := finishRec_short_props symbol last.close funding oi
        (approximate_cvd_from_aggtrades cvdKl) (atrLast kl 14)
        (atr_pct_of kl last)
        "Funding positive + buying pressure -> possible extension to downside reversal"
        (max (1/100) (min (5/100) (atr_pct_of kl last * 5)))
        (max (1/100) (min (3/100) (atr_pct_of kl last * 3)))
        (le_max_left _ _) (max_le (by norm_num) (min_le_left _ _))
        (le_max_left _ _)
      refine ⟨props.2.2.2.2.1, ?_⟩
      intro e t s he ht hs
      rw [props.2.1] at he
      rw [props.2.2.1] at ht
      rw [props.2.2.2.1] at hs
      obtain rfl := (Option.some.inj he).symm
      obtain rfl := (Option.some.inj ht).symm
      obtain rfl := (Option.some.inj hs).symm
      by_cases hp : last.close = 0
      · constructor
        · intro _
          exact props.2.2.2.2.2.1 hp
        · intro hne
          exfalso
          apply hne
          rw [hp]
          norm_num
      · have hprops := props.2.2.2.2.2.2 hp
        constructor
        · intro hzero
          exact absurd hzero hprops.1
        · intro _
          rw [props.1, if_neg (by decide)]
          exact hprops.2
    · rw [core_wait hL hS symbol kl last oi]
      have props := finishRec_wait_props symbol last.close funding oi
        (approximate_cvd_from_aggtrades cvdKl) (atrLast kl 14)
        (atr_pct_of kl last)
        (if 3/100 < atr_pct_of kl last then
          "High volatility - prefer to wait for clearer setup"
         else "No clear short-squeeze or reversal condition")
      refine ⟨props.2.2.2.2.2, ?_⟩
      intro e t s he _ _
      rw [props.2.1] at he
      exact absurd he (by simp)

/-- Witness for C4: on the SCALP LONG input with last close 100 the
result carries no error (nothing was raised). -/
theorem C4_risk_reward_witness :
    (generate_recommendation "BTCUSDT"
      (okInput wKl (-(1/1000)) 0 wCvdSell)).error = none :=
  (C4_risk_reward "BTCUSDT" wKl wCandle (-(1/1000)) 0 wCvdSell _ rfl rfl).1

/-! ### Claim C10: strict ordering of the emitted levels -/

/-- Claim C10: for a positive price, an actionable evaluation emits
strictly ordered levels — sl < entry < tp for SCALP LONG and
tp < entry < sl for SCALP SHORT — because the clamped take-profit offset
lies in [0.01, 0.05] and the clamped stop-loss offset lies in
[0.01, 0.03], both strictly between 0 and 1. -/
theorem C10_level_ordering :
    ∀ (symbol : String) (kl : List Candle) (last : Candle) (funding oi : ℚ)
      (cvdKl : Except String (List Candle)) (r : Recommendation),
      kl.getLast? = some last → 0 < last.close →
      r = generate_recommendation symbol (okInput kl funding oi cvdKl) →
      (r.signal = some "SCALP LONG" →
        ∀ e t s, r.entry = some e → r.tp = some t → r.sl = some s →
          s < e ∧ e < t)
      ∧ (r.signal = some "SCALP SHORT" →
        ∀ e t s, r.entry = some e → r.tp = some t → r.sl = some s →
          t < e ∧ e < s) := by
  intro symbol kl last funding oi cvdKl r hlast hp hr
  subst hr
  rw [gen_ok symbol kl last funding oi cvdKl hlast]
  by_cases hL : funding < -(5/10000) ∧
      cvdNeg (approximate_cvd_from_aggtrades cvdKl) = true
  · rw [core_long hL.1 hL.2 symbol kl last oi]
    have props := finishRec_long_props symbol last.close funding oi
      (approximate_cvd_from_aggtrades cvdKl) (atrLast kl 14)
      (atr_pct_of kl last)
      "Funding negative (shorts dominate) + selling pressure -> potential short squeeze"
      (max (1/100) (min (5/100) (atr_pct_of kl last * 5)))
      (max (1/100) (min (3/100) (atr_pct_of kl last * 3)))
      (le_max_left _ _) (le_max_left _ _)
      (max_le (by norm_num) (min_le_left _ _))
    constructor
    · intro _ e t s he ht hs
      rw [props.2.1] at he
      rw [props.2.2.1] at ht
      rw [props.2.2.2.1] at hs
      obtain rfl := (Option.some.inj he).symm
      obtain rfl := (Option.some.inj ht).symm
      obtain rfl := (Option.some.inj hs).symm
      have h5 : 1/100 ≤ max (1/100) (min (5/100) (atr_pct_of kl last * 5)) :=
        le_max_left _ _
      have h3 : 1/100 ≤ max (1/100) (min (3/100) (atr_pct_of kl last * 3)) :=
        le_max_left _ _
      constructor
      · nlinarith
      · nlinarith
    · intro hsig
      rw [props.1] at hsig
      exact absurd hsig (by decide)
  · by_cases hS : 5/10000 < funding ∧
        cvdPos (approximate_cvd_from_aggtrades cvdKl) = true
    · rw [core_short hS.1 hS.2 symbol kl last oi]
      have props := finishRec_short_props symbol last.close funding oi
        (approximate_cvd_from_aggtrades cvdKl) (atrLast kl 14)
        (atr_pct_of kl last)
        "Funding positive + buying pressure -> possible extension to downside reversal"
        (max (1/100) (min (5/100) (atr_pct_of kl last * 5)))
        (max (1/100) (min (3/100) (atr_pct_of kl last * 3)))
        (le_max_left _ _) (max_le (by norm_num) (min_le_left _ _))
        (le_max_left _ _)
      constructor
      · intro hsig
        rw [props.1] at hsig
        exact absurd hsig (by decide)
      · intro _ e t s he ht hs
        rw [props.2.1] at he
        rw [props.2.2.1] at ht
        rw [props.2.2.2.1] at hs
        obtain rfl := (Option.some.inj he).symm
        obtain rfl := (Option.some.inj ht).symm
        obtain rfl := (Option.some.inj hs).symm
        have h5 : 1/100 ≤ max (1/100) (min (5/100) (atr_pct_of kl last * 5)) :=
          le_max_left _ _
        have h3 : 1/100 ≤ max (1/100) (min (3/100) (atr_pct_of kl last * 3)) :=
          le_max_left _ _
        constructor
        · nlinarith
        · nlinarith
    · rw [core_wait hL hS symbol kl last oi]
      have props := finishRec_wait_props symbol last.close funding oi
        (approximate_cvd_from_aggtrades cvdKl) (atrLast kl 14)
        (atr_pct_of kl last)
        (if 3/100 < atr_pct_of kl last then
          "High volatility - prefer to wait for clearer setup"
         else "No clear short-squeeze or reversal condition")
      constructor
      · intro hsig
        rw [props.1] at hsig
        exact absurd hsig (by decide)
      · intro hsig
        rw [props.1] at hsig
        exact absurd hsig (by decide)

theorem atrLast_wKl : atrLast wKl 14 = 4 := by
  norm_num [atrLast, atr, rollingMean, trList, trRow, prevCloses,
    rowMaxSkipna, wKl, wCandle, List.range, List.range.loop]

theorem atr_pct_wKl : atr_pct_of wKl wCandle = 4/100 := by
  have hc : wCandle.close = (100 : ℚ) := rfl
  rw [atr_pct_of, hc, atrLast_wKl]
  norm_num

/-- Witness for C10: on the SCALP LONG input with last close 100 the
levels instantiate to sl = 97 < entry = 100 < tp = 105. -/
theorem C10_level_ordering_witness : (97 : ℚ) < 100 ∧ (100 : ℚ) < 105 := by
  have hgen : generate_recommendation "BTCUSDT"
      (okInput wKl (-(1/1000)) 0 wCvdSell) =
      finishRec "BTCUSDT" wCandle.close (-(1/1000)) 0 (some (-2))
        (atrLast wKl 14) (atr_pct_of wKl wCandle) "SCALP LONG"
        "Funding negative (shorts dominate) + selling pressure -> potential short squeeze"
        (some wCandle.close)
        (some (wCandle.close *
          (1 + max (1/100) (min (5/100) (atr_pct_of wKl wCandle * 5)))))
        (some (wCandle.close *
          (1 - max (1/100) (min (3/100) (atr_pct_of wKl wCandle * 3))))) := by
    rw [gen_ok "BTCUSDT" wKl wCandle (-(1/1000)) 0 wCvdSell rfl, cvd_wCvdSell]
    exact core_long (by norm_num) (by decide) "BTCUSDT" wKl wCandle 0
  have props := finishRec_long_props "BTCUSDT" wCandle.close (-(1/1000)) 0
    (some (-2)) (atrLast wKl 14) (atr_pct_of wKl wCandle)
    "Funding negative (shorts dominate) + selling pressure -> potential short squeeze"
    (max (1/100) (min (5/100) (atr_pct_of wKl wCandle * 5)))
    (max (1/100) (min (3/100) (atr_pct_of wKl wCandle * 3)))
    (le_max_left _ _) (le_max_left _ _)
    (max_le (by norm_num) (min_le_left _ _))
  have hc : wCandle.close = (100 : ℚ) := rfl
  have hm5 : max (1/100) (min (5/100) (atr_pct_of wKl wCandle * 5)) =
      (5/100 : ℚ) := by
    rw [atr_pct_wKl]
    norm_num [min_def, max_def]
  have hm3 : max (1/100) (min (3/100) (atr_pct_of wKl wCandle * 3)) =
      (3/100 : ℚ) := by
    rw [atr_pct_wKl]
    norm_num [min_def, max_def]
  have hsig : (generate_recommendation "BTCUSDT"
      (okInput wKl (-(1/1000)) 0 wCvdSell)).signal = some "SCALP LONG" := by
    rw [hgen]
    exact props.1
  have he : (generate_recommendation "BTCUSDT"
      (okInput wKl (-(1/1000)) 0 wCvdSell)).entry = some 100 := by
    rw [hgen]
    exact props.2.1
  have ht : (generate_recommendation "BTCUSDT"
      (okInput wKl (-(1/1000)) 0 wCvdSell)).tp = some 105 := by
    rw [hgen, props.2.2.1, hm5, hc]
    norm_num
  have hs : (generate_recommendation "BTCUSDT"
      (okInput wKl (-(1/1000)) 0 wCvdSell)).sl = some 97 := by
    rw [hgen, props.2.2.2.1, hm3, hc]
    norm_num
  exact (C10_level_ordering "BTCUSDT" wKl wCandle (-(1/1000)) 0 wCvdSell _
    rfl (by decide) rfl).1 hsig 100 105 97 he ht hs

/-! ### Helper lemmas for the ATR claim -/

theorem zip_getElem?_some {α β : Type} (l1 : List α) (l2 : List β) (i : ℕ)
    (a : α) (b : β) (h1 : l1[i]? = some a) (h2 : l2[i]? = some b) :
    (l1.zip l2)[i]? = some (a, b) := by
  induction l1 generalizing l2 i with
  | nil => simp at h1
  | cons x xs ih =>
    cases l2 with
    | nil => simp at h2
    | cons y ys =>
      cases i with
      | zero =>
        simp only [List.getElem?_cons_zero, Option.some.injEq] at h1 h2
        simp [List.zip_cons_cons, h1, h2]
      | succ j =>
        simp only [List.getElem?_cons_succ] at h1 h2
        simpa [List.zip_cons_cons] using ih ys j h1 h2

theorem trRow_none (c : Candle) : trRow (c, none) = c.high - c.low := rfl

theorem trRow_some (c : Candle) (p : ℚ) :
    trRow (c, some p) = max (c.high - c.low) (max |c.high - p| |c.low - p|) := by
  show max (max (c.high - c.low) |c.high - p|) |c.low - p| = _
  exact max_assoc _ _ _

theorem trList_length (cs : List Candle) : (trList cs).length = cs.length := by
  simp [trList, prevCloses]

theorem range_map_getLastD (k : ℕ) (hk : 0 < k) (f : ℕ → ℚ) (d : ℚ) :
    ((List.range k).map f).getLastD d = f (k - 1) := by
  rw [List.getLastD_eq_getLast?, List.getLast?_eq_getElem?]
  simp only [List.length_map, List.length_range]
  rw [List.getElem?_map, List.getElem?_range (by omega)]
  rfl

/-! ### Claim C7: ATR -/

/-- Claim C7: for a nonempty candle series and period ≥ 1 the ATR value
used by the engine is aligned to the last candle and equals the
arithmetic mean of the true ranges over the trailing window of size
`period` (all available points when fewer exist, so the window length is
`min period k` and nothing is undefined), where
TR_0 = high_0 - low_0 and, for i ≥ 1,
TR_i = max(high_i - low_i, max(|high_i - close_(i-1)|, |low_i - close_(i-1)|)). -/
theorem C7_atr_last_window :
    ∀ (cs : List Candle) (period : ℕ),
      cs ≠ [] → 1 ≤ period →
      (trList cs).length = cs.length
      ∧ (∀ c0, cs[0]? = some c0 →
          (trList cs)[0]? = some (c0.high - c0.low))
      ∧ (∀ i ci cp, cs[i + 1]? = some ci → cs[i]? = some cp →
          (trList cs)[i + 1]? = some (max (ci.high - ci.low)
            (max |ci.high - cp.close| |ci.low - cp.close|)))
      ∧ atrLast cs period =
          ((trList cs).drop (cs.length - period)).sum /
            (((trList cs).drop (cs.length - period)).length : ℚ)
      ∧ ((trList cs).drop (cs.length - period)).length = min period cs.length := by
  intro cs period hne hper
  have hk : 0 < cs.length := List.length_pos.mpr hne
  have hlen := trList_length cs
  refine ⟨hlen, ?_, ?_, ?_, ?_⟩
  · intro c0 h0
    have hp0 : (prevCloses cs)[0]? = some none := by
      rw [prevCloses, List.getElem?_cons_zero]
    rw [trList, List.getElem?_map, zip_getElem?_some cs (prevCloses cs) 0 c0 none h0 hp0]
    show some (trRow (c0, none)) = _
    rw [trRow_none]
  · intro i ci cp hci hcp
    have hpi : (prevCloses cs)[i + 1]? = some (some cp.close) := by
      rw [prevCloses, List.getElem?_cons_succ, List.getElem?_map, hcp]
      rfl
    rw [trList, List.getElem?_map,
      zip_getElem?_some cs (prevCloses cs) (i + 1) ci (some cp.close) hci hpi]
    show some (trRow (ci, some cp.close)) = _
    rw [trRow_some]
  · have hk2 : 0 < (trList cs).length := by rw [hlen]; exact hk
    rw [atrLast, atr, rollingMean, range_map_getLastD _ hk2]
    have hstep : (trList cs).length - 1 + 1 = (trList cs).length := by omega
    rw [hstep, List.take_length, hlen]
  · rw [List.length_drop, hlen]
    omega

/-- Witness for C7 on a two-candle series with period 14: the window has
length min 14 2 = 2 and the last ATR is the mean of both true ranges. -/
theorem C7_atr_last_window_witness :
    ((trList [wCandle, wCandle]).drop ([wCandle, wCandle].length - 14)).length =
      min 14 [wCandle, wCandle].length :=
  (C7_atr_last_window [wCandle, wCandle] 14 (by decide) (by decide)).2.2.2.2

end SignalScalping
